import Mathlib

/-!
Verification development for the E<T>WIN front end (frontend/src/api/gaiaApi.ts,
frontend/src/components/SimulationDashboard.tsx, frontend/src/components/PolicyChat.tsx).

Modelling conventions:
- JavaScript numbers are modelled as rationals.  All arithmetic in the translated
  code is +, -, *, /, abs, min, max and Math.round, which are exact here.
- Math.round is floor (x + 1/2), matching JavaScript semantics of rounding
  half toward positive infinity.
- A network call is modelled by an oracle value of type HttpOutcome: the
  environment either fails at the network level, times out (the AbortSignal
  fires), or delivers a response with an HTTP status and a parsed body.
- React state setters become explicit state passing: each handler is a pure
  function from the oracle inputs and the previous component state to the list
  of HTTP requests it issues and the next component state.
- JavaScript String.prototype.trim is modelled by jsTrim, which strips the
  common whitespace characters from both ends.
-/

namespace Etwin

/-- Model of JavaScript Math.round: floor (x + 1/2), returned as a rational. -/
def jsRound (q : ℚ) : ℚ := (⌊q + 1/2⌋ : ℤ)

/-- Whitespace test used by the model of String.prototype.trim. -/
def isJsWs (c : Char) : Bool := c == ' ' || c == '\t' || c == '\n' || c == '\r'

/-- Model of JavaScript String.prototype.trim. -/
def jsTrim (s : String) : String :=
  String.mk (((s.data.dropWhile isJsWs).reverse.dropWhile isJsWs).reverse)

-- ── DTO types (gaiaApi.ts) ───────────────────────────────────────────────────

inductive ClimateTrend where
  | rising | falling | stable
deriving DecidableEq, Repr

inductive WaterStatus where
  | normal | warning | critical
deriving DecidableEq, Repr

inductive EnvTrend where
  | increasing | decreasing | stable
deriving DecidableEq, Repr

inductive StabilityTrend where
  | improving | declining | stable
deriving DecidableEq, Repr

structure StateResponse where
  timestamp : String
  location : String
  sdg_composite_score : ℚ
  system_stability_score : ℚ
  confidence_score : ℚ
  cycle_id : ℚ
deriving DecidableEq, Repr

structure ClimateResponse where
  temperature_current : ℚ
  temperature_7_cycle_avg : ℚ
  temperature_anomaly : ℚ
  precipitation_current : ℚ
  climate_stress_factor : ℚ
  anomaly_detected : Bool
  trend : ClimateTrend
deriving DecidableEq, Repr

structure WaterResponse where
  reservoir_level_percent : ℚ
  daily_inflow : ℚ
  daily_outflow : ℚ
  water_stress_index : ℚ
  days_until_critical : ℚ
  status : WaterStatus
deriving DecidableEq, Repr

structure EnvironmentResponse where
  co2_ppm : ℚ
  emission_growth_rate : ℚ
  trend : EnvTrend
  carbon_stress_index : ℚ
deriving DecidableEq, Repr

structure EconomyResponse where
  gdp_growth_rate : ℚ
  industry_profit_index : ℚ
  energy_price_index : ℚ
  policy_spending : ℚ
  economic_stability_score : ℚ
deriving DecidableEq, Repr

structure SocialResponse where
  inequality_index : ℚ
  public_sentiment_score : ℚ
  public_pressure_score : ℚ
  governance_confidence : ℚ
  stability_trend : StabilityTrend
deriving DecidableEq, Repr

inductive AlertType where
  | climate_anomaly | resource_threshold | policy_triggered | sdg_shift | economic_shock
deriving DecidableEq, Repr

inductive Severity where
  | high | medium | low
deriving DecidableEq, Repr

structure Alert where
  id : ℚ
  type : AlertType
  severity : Severity
  message : String
  timestamp : String
deriving DecidableEq, Repr

structure AlertsResponse where
  alerts : List Alert
deriving DecidableEq, Repr

inductive RiskLevel where
  | low | moderate | high | critical
deriving DecidableEq, Repr

structure InsightResponse where
  recommended_policy : String
  expected_sdg_delta : ℚ
  expected_economic_impact : ℚ
  confidence : ℚ
  risk_level : RiskLevel
  explanation : String
deriving DecidableEq, Repr

structure ForecastResponse where
  reservoir_projection : List ℚ
  emission_projection : List ℚ
  risk_probability : ℚ
deriving DecidableEq, Repr

structure HealthResponse where
  simulation_engine_status : String
  last_signal_injection : String
  last_policy_run : String
deriving DecidableEq, Repr

-- ── HTTP model ───────────────────────────────────────────────────────────────

/-- Outcome of one fetch call, supplied by the environment: a network-level
failure (the promise rejects), an abort-timeout firing, or an HTTP response
with a status code and a parsed JSON body. -/
inductive HttpOutcome (α : Type) where
  | netError
  | timeout
  | response (status : ℕ) (body : α)
deriving DecidableEq, Repr

/-- Model of the Response.ok flag: status in the 2xx range. -/
def resOk (status : ℕ) : Bool := 200 ≤ status && status < 300

inductive Method where
  | GET | POST
deriving DecidableEq, Repr

inductive BaseUrl where
  | sim | gov
deriving DecidableEq, Repr

/-- A policy record, Record of string to number in the TypeScript source. -/
abbrev Policy := List (String × ℚ)

inductive JsonVal where
  | num (q : ℚ)
  | str (s : String)
  | bool (b : Bool)
  | null
deriving DecidableEq, Repr

abbrev JsonObj := List (String × JsonVal)

/-- The serialized body of a request, by shape of the call site. -/
inductive BodyModel where
  | simulateB (steps : ℚ) (policy : Option Policy)
  | chatB (question : String) (gemini_api_key : Option String)
  | rawJson (o : JsonObj)
deriving DecidableEq, Repr

/-- Static description of one HTTP request the front end issues: method, base
URL, path, the AbortSignal timeout in milliseconds when one is attached, and
the body when one is sent. -/
structure Request where
  method : Method
  base : BaseUrl
  path : String
  timeoutMs : Option ℕ
  body : Option BodyModel
deriving DecidableEq, Repr

/-- Model of the get helper of gaiaApi.ts: null on a rejected fetch (network
failure or the 5000 ms abort timeout) and on a non-2xx status, otherwise the
parsed body. -/
def get {α : Type} (o : HttpOutcome α) : Option α :=
  match o with
  | .netError => none
  | .timeout => none
  | .response s b => if resOk s then some b else none

/-- Model of the govPost helper: same null-on-failure shape as get, with a
10000 ms timeout on the request it issues. -/
def govPost {α : Type} (o : HttpOutcome α) : Option α :=
  match o with
  | .netError => none
  | .timeout => none
  | .response s b => if resOk s then some b else none

/-- Model of the EtwinAPI.simulate result: fetch(...).then(ok ? json : null).catch(null). -/
def simulateResult {α : Type} (o : HttpOutcome α) : Option α :=
  match o with
  | .netError => none
  | .timeout => none
  | .response s b => if resOk s then some b else none

/-- Model of the EtwinAPI.reset result: fetch(...).catch(null) with no ok
check, so a resolved response is returned whole (status and body), and only a
network-level rejection becomes null. -/
def resetResult {α : Type} (o : HttpOutcome α) : Option (ℕ × α) :=
  match o with
  | .netError => none
  | .timeout => none
  | .response s b => some (s, b)

/-- Model of the PolicyChat fetch: the component throws on a non-ok status and
catches every failure, so the successful outcome is the parsed body and every
failure is none. -/
def chatResult (o : HttpOutcome α) : Option α :=
  match o with
  | .netError => none
  | .timeout => none
  | .response s b => if resOk s then some b else none

-- ── Request descriptors (gaiaApi.ts call sites) ──────────────────────────────

/-- Request issued by the get helper: GET with a 5000 ms abort timeout. -/
def getReq (base : BaseUrl) (path : String) : Request :=
  ⟨.GET, base, path, some 5000, none⟩

def stateReq : Request := getReq .gov "/api/state/current"

def climateReq : Request := getReq .gov "/api/signals/climate"

def waterReq : Request := getReq .gov "/api/systems/water"

def environmentReq : Request := getReq .gov "/api/systems/environment"

def economyReq : Request := getReq .gov "/api/systems/economy"

def socialReq : Request := getReq .gov "/api/systems/social"

def alertsReq : Request := getReq .gov "/api/alerts/recent"

def insightReq : Request := getReq .gov "/api/insights/latest"

def timelineReq (limit : ℕ := 20) : Request :=
  getReq .gov ("/api/timeline?limit=" ++ toString limit)

def forecastReq : Request := getReq .gov "/api/forecast/7-cycle"

def healthReq : Request := getReq .gov "/api/meta/health"

/-- Request issued by the govPost helper: POST with a 10000 ms abort timeout. -/
def govPostReq (path : String) (body : JsonObj := []) : Request :=
  ⟨.POST, .gov, path, some 10000, some (.rawJson body)⟩

def updateDigitalTwinReq (body : JsonObj) : Request :=
  govPostReq "/update-digital-twin" body

def runEmergencySimulationReq (body : JsonObj := []) : Request :=
  govPostReq "/run-emergency-simulation" body

/-- Request issued by EtwinAPI.simulate: POST /api/simulate with body
containing steps and policy and an 8000 ms abort timeout. -/
def simulateReq (steps : ℚ) (policy : Option Policy) : Request :=
  ⟨.POST, .sim, "/api/simulate", some 8000, some (.simulateB steps policy)⟩

def nodesReq : Request := getReq .sim "/api/nodes"

/-- Request issued by EtwinAPI.reset: POST /api/reset with no AbortSignal and
no body. -/
def resetReq : Request := ⟨.POST, .sim, "/api/reset", none, none⟩

/-- Request issued by the PolicyChat component: POST /api/policy-chat with the
question and optional Gemini key in the body and a 20000 ms abort timeout. -/
def policyChatReq (question : String) (key : Option String) : Request :=
  ⟨.POST, .sim, "/api/policy-chat", some 20000, some (.chatB question key)⟩

/-- The operations exported by the EtwinAPI client object, at default
parameters, as request descriptors (order follows the source). -/
def clientRequests : List Request :=
  [stateReq, climateReq, waterReq, environmentReq, economyReq, socialReq,
   alertsReq, insightReq, timelineReq 20, forecastReq, healthReq,
   updateDigitalTwinReq [], runEmergencySimulationReq [],
   simulateReq 1 none, nodesReq, resetReq]

def reqOp (r : Request) : Method × String := (r.method, r.path)

/-- Every (method, path) pair the front end's HTTP layer can issue: the
EtwinAPI client operations plus the PolicyChat component's POST. -/
def allIssuedOps : List (Method × String) :=
  clientRequests.map reqOp ++ [reqOp (policyChatReq "" none)]

/-- Modelled from the spec: the operations enumerated by the external-interface
section and by the claim - GET endpoints for state, climate, water,
environment, economy, social indicators, alerts, insights, timeline (default
limit 20), forecast, health and the node list, and POST endpoints for
simulation stepping, emergency simulation, digital-twin signal updates and
policy-chat queries. -/
def specEnumeratedOps : List (Method × String) :=
  [(.GET, "/api/state/current"), (.GET, "/api/signals/climate"),
   (.GET, "/api/systems/water"), (.GET, "/api/systems/environment"),
   (.GET, "/api/systems/economy"), (.GET, "/api/systems/social"),
   (.GET, "/api/alerts/recent"), (.GET, "/api/insights/latest"),
   (.GET, "/api/timeline?limit=20"), (.GET, "/api/forecast/7-cycle"),
   (.GET, "/api/meta/health"), (.GET, "/api/nodes"),
   (.POST, "/api/simulate"), (.POST, "/run-emergency-simulation"),
   (.POST, "/update-digital-twin"), (.POST, "/api/policy-chat")]

-- ── SimulationDashboard: derived governance data ─────────────────────────────

/-- Metrics of one local GNN simulation step (SimulationDashboard.tsx). -/
structure SimMetrics where
  total_emissions : Option ℚ
  total_water_consumption : Option ℚ
  average_social_vulnerability : Option ℚ
  composite_sdg_score : Option ℚ
  timestep : Option ℚ
deriving DecidableEq, Repr

/-- The record of derived objects returned by deriveLocalGovData. -/
structure DerivedGov where
  state : StateResponse
  climate : ClimateResponse
  water : WaterResponse
  env : EnvironmentResponse
  economy : EconomyResponse
  social : SocialResponse
  forecast : ForecastResponse
deriving DecidableEq, Repr

/-- Translation of deriveLocalGovData (SimulationDashboard.tsx lines 54-114).
The nowIso argument stands for new Date().toISOString(). -/
def deriveLocalGovData (nowIso : String) (simMetrics : Option SimMetrics)
    (timestep : ℚ) : DerivedGov :=
  let emissions := |(simMetrics.bind SimMetrics.total_emissions).getD 120|
  let water := |(simMetrics.bind SimMetrics.total_water_consumption).getD 85|
  let vuln := |(simMetrics.bind SimMetrics.average_social_vulnerability).getD 0.4|
  let sdg := |(simMetrics.bind SimMetrics.composite_sdg_score).getD 45|
  let baseCO2 := 420 + emissions / 10
  let baseWaterPercent := max 10 (80 - water / 50)
  { state :=
    { timestamp := nowIso
      location := "Chennai"
      sdg_composite_score := sdg
      system_stability_score := max 0 (100 - vuln * 60 - emissions / 5)
      confidence_score := 0.72
      cycle_id := timestep }
    climate :=
    { temperature_current := 33 + vuln * 3
      temperature_7_cycle_avg := 30
      temperature_anomaly := vuln * 3
      precipitation_current := max 0 (2 - vuln * 2)
      climate_stress_factor := 1 + vuln * 0.5
      anomaly_detected := decide (0.5 < vuln)
      trend := if 0.5 < vuln then .rising else .stable }
    water :=
    { reservoir_level_percent := baseWaterPercent
      daily_inflow := 2.1
      daily_outflow := water / 40
      water_stress_index := min 1 (water / 200)
      days_until_critical := max 1 (jsRound (50 - water / 10))
      status := if 100 < water then .critical else if 60 < water then .warning else .normal }
    env :=
    { co2_ppm := baseCO2
      emission_growth_rate := min 0.15 (emissions / 2000)
      trend := if 150 < emissions then .increasing else .stable
      carbon_stress_index := min 1 (emissions / 300) }
    economy :=
    { gdp_growth_rate := max (-2) (4 - vuln * 3)
      industry_profit_index := max 0 (0.8 - vuln * 0.3)
      energy_price_index := 1 + emissions / 500
      policy_spending := 32000000
      economic_stability_score := max 0 (0.8 - vuln * 0.4) }
    social :=
    { inequality_index := vuln
      public_sentiment_score := max (-1) (0.3 - vuln * 1.2)
      public_pressure_score := min 1 (vuln * 1.5)
      governance_confidence := max 0.2 (0.8 - vuln * 0.4)
      stability_trend := if 0.5 < vuln then .declining else if 0.3 < vuln then .stable else .improving }
    forecast :=
    { reservoir_projection :=
        (List.range 7).map fun i : ℕ =>
          max 10 (jsRound (baseWaterPercent - (i : ℚ) * (water / 500)))
      emission_projection :=
        (List.range 7).map fun i : ℕ =>
          jsRound (baseCO2 + (i : ℚ) * (1.2 + emissions / 1000))
      risk_probability := min 0.95 (vuln * 0.8 + emissions / 600) } }

-- ── SimulationDashboard: synthetic nodes ─────────────────────────────────────

/-- A hex-map node (NodeData in CityHexMap). -/
structure NodeData where
  id : ℕ
  lat : ℚ
  lon : ℚ
  stress : ℚ
  emissions : ℚ
  vulnerability : ℚ
deriving DecidableEq, Repr

/-- One step of the seeded LCG of makeRng: s = (s * 1664525 + 1013904223) &
0xfffffff.  The mask keeps 28 bits, so this is reduction mod 2 ^ 28. -/
def lcgNext (s : ℕ) : ℕ := (s * 1664525 + 1013904223) % 2 ^ 28

/-- The value returned by one rand() call, for the post-step state s:
(s >>> 0) / 0xfffffff. -/
def lcgVal (s : ℕ) : ℚ := (s : ℚ) / (2 ^ 28 - 1)

def CL : ℚ := 13.0827

def CO : ℚ := 80.2707

def R : ℚ := 0.18

/-- One node of generateSyntheticNodes: four rand() draws in source order
(lat, lon, then the two draws inside stress), returning the node and the rng
state after the four draws. -/
def synthNode (stressFactor : ℚ) (s : ℕ) (id : ℕ) : NodeData × ℕ :=
  let s1 := lcgNext s
  let s2 := lcgNext s1
  let s3 := lcgNext s2
  let s4 := lcgNext s3
  let lat := CL - R + lcgVal s1 * R * 2
  let lon := CO - R + lcgVal s2 * R * 2
  let stress := min 1 (lcgVal s3 * 0.5 + stressFactor * 0.5 + lcgVal s4 * 0.15)
  (⟨id, lat, lon, stress, stress * 400, stressFactor⟩, s4)

/-- Sequential generation of count nodes starting at the given id, threading
the rng state exactly as the Array.from callback does. -/
def genNodes (stressFactor : ℚ) : ℕ → ℕ → ℕ → List NodeData
  | _, _, 0 => []
  | s, id, c + 1 =>
    (synthNode stressFactor s id).1 ::
      genNodes stressFactor (synthNode stressFactor s id).2 (id + 1) c

/-- Translation of generateSyntheticNodes (SimulationDashboard.tsx lines
123-132): 200 nodes from the seeded LCG. -/
def generateSyntheticNodes (stressFactor : ℚ) (seed : ℕ := 42) : List NodeData :=
  genNodes stressFactor seed 0 200

/-- Translation of buildNodesFromAPI: a field-wise copy of the raw nodes. -/
def buildNodesFromAPI (raw : List NodeData) : List NodeData :=
  raw.map fun n => ⟨n.id, n.lat, n.lon, n.stress, n.emissions, n.vulnerability⟩

-- ── SimulationDashboard: component state and handlers ────────────────────────

/-- The component-local state of SimulationDashboard that the polling logic
reads or writes. -/
structure DashState where
  simOnline : Bool
  govOnline : Bool
  nodes : List NodeData
  timestep : ℚ
  simLoading : Bool
  lastSimMetrics : Option SimMetrics
  stateData : Option StateResponse
  climate : Option ClimateResponse
  water : Option WaterResponse
  env : Option EnvironmentResponse
  economy : Option EconomyResponse
  social : Option SocialResponse
  alerts : Option AlertsResponse
  insight : Option InsightResponse
  forecast : Option ForecastResponse
  health : Option HealthResponse
  lastManualSimTime : ℚ
deriving DecidableEq, Repr

/-- The ten governance fetch outcomes one poll of fetchGov can receive. -/
structure GovFetchOutcome where
  state : HttpOutcome StateResponse
  climate : HttpOutcome ClimateResponse
  water : HttpOutcome WaterResponse
  environment : HttpOutcome EnvironmentResponse
  economy : HttpOutcome EconomyResponse
  social : HttpOutcome SocialResponse
  alerts : HttpOutcome AlertsResponse
  insight : HttpOutcome InsightResponse
  forecast : HttpOutcome ForecastResponse
  health : HttpOutcome HealthResponse
deriving DecidableEq, Repr

/-- A conditional setter, modelling if (x) setX(x): keep the old value when
the fetched value is null. -/
def oUpd {α : Type} : Option α → Option α → Option α
  | some v, _ => some v
  | none, old => old

/-- The ten GET requests the govUp branch of fetchGov issues, in source order. -/
def govGetRequests : List Request :=
  [stateReq, climateReq, waterReq, environmentReq, economyReq, socialReq,
   alertsReq, insightReq, forecastReq, healthReq]

/-- Translation of fetchGov (SimulationDashboard.tsx lines 192-222): when the
governance service is up, fetch the ten endpoints and overwrite each field
only with a non-null result; otherwise replace the seven derivable fields with
the output of deriveLocalGovData.  Returns the issued requests and the next
state. -/
def fetchGov (nowIso : String) (o : GovFetchOutcome) (simMetrics : Option SimMetrics)
    (ts : ℚ) (govUp : Bool) (st : DashState) : List Request × DashState :=
  if govUp then
    (govGetRequests,
     { st with
       stateData := oUpd (get o.state) st.stateData
       climate := oUpd (get o.climate) st.climate
       water := oUpd (get o.water) st.water
       env := oUpd (get o.environment) st.env
       economy := oUpd (get o.economy) st.economy
       social := oUpd (get o.social) st.social
       alerts := oUpd (get o.alerts) st.alerts
       insight := oUpd (get o.insight) st.insight
       forecast := oUpd (get o.forecast) st.forecast
       health := oUpd (get o.health) st.health })
  else
    let d := deriveLocalGovData nowIso simMetrics ts
    ([],
     { st with
       stateData := some d.state
       climate := some d.climate
       water := some d.water
       env := some d.env
       economy := some d.economy
       social := some d.social
       forecast := some d.forecast })

/-- Body of the /api/nodes response as fetchNodes inspects it. -/
structure NodesResp where
  nodes : Option (List NodeData)
  timestep : ℚ
deriving DecidableEq, Repr

/-- Translation of fetchNodes: use the API nodes when present and non-empty,
otherwise the synthetic fallback with the default seed. -/
def fetchNodes (o : HttpOutcome NodesResp) (stressFactor : ℚ)
    (st : DashState) : List Request × DashState :=
  match get o with
  | some d =>
    match d.nodes with
    | some (n :: ns) => ([nodesReq], { st with nodes := buildNodesFromAPI (n :: ns) })
    | _ => ([nodesReq], { st with nodes := generateSyntheticNodes stressFactor })
  | none => ([nodesReq], { st with nodes := generateSyntheticNodes stressFactor })

/-- Body of the /api/simulate response as stepSim inspects it. -/
structure SimulateResp where
  results : Option (List SimMetrics)
  current_timestep : Option ℚ
deriving DecidableEq, Repr

/-- Translation of stepSim (SimulationDashboard.tsx lines 170-188): one
simulate POST with steps = 1; on a null result or a missing or empty results
array it returns null and leaves the metrics and the timestep alone, otherwise
it stores the last element of results and the reported timestep (0 when
absent).  simLoading ends false because of the finally block. -/
def stepSim (policy : Option Policy) (o : HttpOutcome SimulateResp)
    (st : DashState) : List Request × Option (SimMetrics × ℚ) × DashState :=
  let req := simulateReq 1 policy
  match simulateResult o with
  | none => ([req], none, { st with simLoading := false })
  | some r =>
    match r.results with
    | none => ([req], none, { st with simLoading := false })
    | some [] => ([req], none, { st with simLoading := false })
    | some (m0 :: ms) =>
      let m := (m0 :: ms).getLast (List.cons_ne_nil m0 ms)
      let ts := r.current_timestep.getD 0
      ([req], some (m, ts),
       { st with lastSimMetrics := some m, timestep := ts, simLoading := false })

/-- The network outcomes a policy application can consume. -/
structure NetOracle where
  simulate : HttpOutcome SimulateResp
  gov : GovFetchOutcome
  nodes : HttpOutcome NodesResp
  nowIso : String
deriving DecidableEq, Repr

/-- Stress factor computed from a metrics record by applyPolicy and tick. -/
def stressFactorOf (m : SimMetrics) : ℚ :=
  min 1 (|m.average_social_vulnerability.getD 0.35| + 0.1)

/-- Translation of applyPolicy (SimulationDashboard.tsx lines 234-249): record
the manual-simulation time t0 first, then step the engine with the policy and,
on success, refresh governance data (against the govOnline flag captured from
the state) and the node map. -/
def applyPolicy (t0 : ℚ) (policy : Policy) (o : NetOracle)
    (st : DashState) : List Request × DashState :=
  let st0 := { st with lastManualSimTime := t0 }
  let s1 := stepSim (some policy) o.simulate st0
  match s1.2.1 with
  | none => (s1.1, s1.2.2)
  | some (m, ts) =>
    let g := fetchGov o.nowIso o.gov (some m) ts st.govOnline s1.2.2
    let n := fetchNodes o.nodes (stressFactorOf m) g.2
    (s1.1 ++ g.1 ++ n.1, n.2)

/-- The network outcomes one tick can consume: the two status pings plus the
outcomes of the conditional follow-up calls. -/
structure TickOracle where
  simPing : HttpOutcome Unit
  govPing : HttpOutcome Unit
  simulate : HttpOutcome SimulateResp
  gov : GovFetchOutcome
  nodes : HttpOutcome NodesResp
  nowIso : String
deriving DecidableEq, Repr

/-- Result of fetch(base + path).then(ok).catch(false). -/
def pingOk (o : HttpOutcome Unit) : Bool :=
  match o with
  | .response s _ => resOk s
  | _ => false

/-- The bare status-ping request on the simulation root: no timeout, no body. -/
def pingSimReq : Request := ⟨.GET, .sim, "/", none, none⟩

/-- The bare status-ping request on the governance health path. -/
def pingGovReq : Request := ⟨.GET, .gov, "/api/meta/health", none, none⟩

/-- Translation of tick (SimulationDashboard.tsx lines 252-278): skip
everything while inside the 15000 ms manual-override window; otherwise ping
both services, record the flags, and when the simulation service is up run one
simulation step and, on success, refresh governance data and nodes. -/
def tick (now : ℚ) (o : TickOracle) (st : DashState) : List Request × DashState :=
  if now - st.lastManualSimTime < 15000 then ([], st)
  else
    let simUp := pingOk o.simPing
    let govUp := pingOk o.govPing
    let st1 := { st with simOnline := simUp, govOnline := govUp }
    if simUp then
      let s1 := stepSim none o.simulate st1
      match s1.2.1 with
      | none => (pingSimReq :: pingGovReq :: s1.1, s1.2.2)
      | some (m, ts) =>
        let g := fetchGov o.nowIso o.gov (some m) ts govUp s1.2.2
        let n := fetchNodes o.nodes (stressFactorOf m) g.2
        (pingSimReq :: pingGovReq :: (s1.1 ++ g.1 ++ n.1), n.2)
    else ([pingSimReq, pingGovReq], st1)

-- ── PolicyChat ───────────────────────────────────────────────────────────────

structure Weather where
  available : Bool
  temperature_forecast_c : Option (List ℚ)
  precipitation_forecast_mm : Option (List ℚ)
deriving DecidableEq, Repr

/-- PolicyResult of PolicyChat.tsx: the body returned by /api/policy-chat. -/
structure PolicyResult where
  analysis : String
  policy_used : Policy
  baseline : Policy
  projected : Policy
  weather : Weather
  delta : Policy
  timestep : ℚ
deriving DecidableEq, Repr

inductive Role where
  | user | assistant
deriving DecidableEq, Repr

structure Message where
  role : Role
  text : String
  result : Option PolicyResult
deriving DecidableEq, Repr

/-- The component-local state of PolicyChat that send reads or writes. -/
structure ChatState where
  input : String
  messages : List Message
  loading : Bool
  apiKey : String
deriving DecidableEq, Repr

/-- Body field apiKey or undefined: the empty string is falsy in the source. -/
def keyOf (k : String) : Option String := if k = "" then none else some k

/-- The error text of the catch branch of send: Server returned status for a
non-ok response, otherwise the message of the thrown error (a browser-supplied
string for network failures and abort timeouts, passed in as netMsg). -/
def chatErrorText (o : HttpOutcome PolicyResult) (netMsg : String) : String :=
  match o with
  | .response s _ => "⚠️ Error: Server returned " ++ toString s
  | _ => "⚠️ Error: " ++ netMsg

/-- The single assistant message send appends: the returned analysis with its
result on success, an error message on failure. -/
def assistantReply (o : HttpOutcome PolicyResult) (netMsg : String) : Message :=
  match chatResult o with
  | some d => ⟨.assistant, d.analysis, some d⟩
  | none => ⟨.assistant, chatErrorText o netMsg, none⟩

/-- Translation of send (PolicyChat.tsx lines 94-125): trim the question (the
explicit argument or the input field), bail out on an empty question or while
loading, otherwise clear the input, append the user message, POST the question
to /api/policy-chat and append exactly one assistant message; loading ends
false because of the finally block. -/
def send (question : Option String) (o : HttpOutcome PolicyResult)
    (netMsg : String) (st : ChatState) : List Request × ChatState :=
  let q := jsTrim (question.getD st.input)
  if q = "" ∨ st.loading = true then ([], st)
  else
    ([policyChatReq q (keyOf st.apiKey)],
     { st with
       input := ""
       loading := false
       messages := st.messages ++ [⟨Role.user, q, none⟩, assistantReply o netMsg] })

-- ── Concrete instances for witnesses ─────────────────────────────────────────

/-- The initial dashboard state of the component (useState initial values). -/
def emptyDash : DashState :=
  { simOnline := false, govOnline := false, nodes := [], timestep := 0
    simLoading := false, lastSimMetrics := none, stateData := none
    climate := none, water := none, env := none, economy := none
    social := none, alerts := none, insight := none, forecast := none
    health := none, lastManualSimTime := 0 }

/-- A governance oracle in which every endpoint fails at the network level. -/
def errGov : GovFetchOutcome :=
  ⟨.netError, .netError, .netError, .netError, .netError,
   .netError, .netError, .netError, .netError, .netError⟩

def errNet : NetOracle := ⟨.netError, errGov, .netError, ""⟩

def errTick : TickOracle := ⟨.netError, .netError, .netError, errGov, .netError, ""⟩

/-- The initial chat state of the component, with no configured key. -/
def emptyChat : ChatState := { input := "", messages := [], loading := false, apiKey := "" }

/-- A metrics record with every field absent. -/
def mA : SimMetrics := ⟨none, none, none, none, none⟩

-- ── Theorems ─────────────────────────────────────────────────────────────────

/-- Counterexample to C2: the reset POST does not convert a non-2xx status to
null.  Its call chain is fetch(...).catch(null) with no ok check, so a 500
response resolves to the response itself, a non-null value. -/
theorem reset_non2xx_not_null :
    resOk 500 = false ∧ resetResult (HttpOutcome.response 500 ()) = some (500, ()) :=
  ⟨rfl, rfl⟩

/-- C2 (amended): for the governance GETs (the get helper), the governance
POSTs (the govPost helper) and the simulate POST, the operation resolves to
null exactly on a network failure, a timeout, or a non-2xx status; the reset
POST resolves to null only on a network-level failure, and resolves to the raw
response (status and body) on any HTTP response, 2xx or not. -/
theorem apiClient_null_on_failure {α : Type} (o : HttpOutcome α) :
    (get o = none ↔ o = HttpOutcome.netError ∨ o = HttpOutcome.timeout ∨
      ∃ s b, o = HttpOutcome.response s b ∧ resOk s = false) ∧
    (govPost o = none ↔ o = HttpOutcome.netError ∨ o = HttpOutcome.timeout ∨
      ∃ s b, o = HttpOutcome.response s b ∧ resOk s = false) ∧
    (simulateResult o = none ↔ o = HttpOutcome.netError ∨ o = HttpOutcome.timeout ∨
      ∃ s b, o = HttpOutcome.response s b ∧ resOk s = false) ∧
    (resetResult o = none ↔ o = HttpOutcome.netError ∨ o = HttpOutcome.timeout) := by
  refine ⟨?_, ?_, ?_, ?_⟩ <;>
    cases o with
    | netError => simp [get, govPost, simulateResult, resetResult]
    | timeout => simp [get, govPost, simulateResult, resetResult]
    | response s b =>
      by_cases hs : resOk s <;>
        simp [get, govPost, simulateResult, resetResult, hs]

/-- Counterexample to C5: the reset POST of the API client is issued with no
abort timeout at all. -/
theorem resetReq_no_timeout :
    resetReq ∈ clientRequests ∧ resetReq.timeoutMs = none := by
  refine ⟨?_, rfl⟩
  simp [clientRequests]

/-- C5 (amended): every request of the API client except the reset POST
carries a fixed abort timeout - 5000 ms for every GET through the get helper
(the eleven governance GETs, timeline at any limit, and the node list), 10000
ms for the governance POSTs, 8000 ms for the simulate POST; the reset POST is
issued without any abort timeout. -/
theorem client_request_timeouts :
    stateReq.timeoutMs = some 5000 ∧ climateReq.timeoutMs = some 5000 ∧
    waterReq.timeoutMs = some 5000 ∧ environmentReq.timeoutMs = some 5000 ∧
    economyReq.timeoutMs = some 5000 ∧ socialReq.timeoutMs = some 5000 ∧
    alertsReq.timeoutMs = some 5000 ∧ insightReq.timeoutMs = some 5000 ∧
    (∀ limit : ℕ, (timelineReq limit).timeoutMs = some 5000) ∧
    forecastReq.timeoutMs = some 5000 ∧ healthReq.timeoutMs = some 5000 ∧
    nodesReq.timeoutMs = some 5000 ∧
    (∀ b : JsonObj, (updateDigitalTwinReq b).timeoutMs = some 10000) ∧
    (∀ b : JsonObj, (runEmergencySimulationReq b).timeoutMs = some 10000) ∧
    (∀ (s : ℚ) (p : Option Policy), (simulateReq s p).timeoutMs = some 8000) ∧
    resetReq.timeoutMs = none :=
  ⟨rfl, rfl, rfl, rfl, rfl, rfl, rfl, rfl, fun _ => rfl, rfl, rfl, rfl,
   fun _ => rfl, fun _ => rfl, fun _ _ => rfl, rfl⟩

/-- Counterexample to C7: the client also exposes a reset operation, POST
/api/reset, which is not among the operations the spec enumerates. -/
theorem reset_op_not_enumerated :
    reqOp resetReq ∈ allIssuedOps ∧ reqOp resetReq ∉ specEnumeratedOps := by
  decide

/-- C7 (amended): the HTTP layer issues exactly the operations the spec
enumerates plus one extra operation, POST /api/reset; every enumerated
operation is issued with its stated method, the simulate POST goes to
/api/simulate with a body of steps and policy, and the policy-chat POST goes
to /api/policy-chat with the question in the body. -/
theorem client_ops_enumeration :
    (∀ op ∈ allIssuedOps, op ∈ specEnumeratedOps ∨ op = (Method.POST, "/api/reset")) ∧
    (∀ op ∈ specEnumeratedOps, op ∈ allIssuedOps) ∧
    (Method.POST, "/api/reset") ∈ allIssuedOps ∧
    (∀ (s : ℚ) (p : Option Policy),
      simulateReq s p = ⟨.POST, .sim, "/api/simulate", some 8000, some (.simulateB s p)⟩) ∧
    (∀ (q : String) (k : Option String),
      policyChatReq q k = ⟨.POST, .sim, "/api/policy-chat", some 20000, some (.chatB q k)⟩) := by
  refine ⟨by decide, by decide, by decide, fun _ _ => rfl, fun _ _ => rfl⟩

/-- Witness for C7's amended theorem at the state endpoint. -/
theorem client_ops_enumeration_witness :
    (Method.GET, "/api/state/current") ∈ specEnumeratedOps ∨
      (Method.GET, "/api/state/current") = (Method.POST, "/api/reset") :=
  client_ops_enumeration.1 (Method.GET, "/api/state/current") (by decide)

/-- C1: when the governance health check fails (govUp false), fetchGov sets
state, climate, water, environment, economy, social and forecast to exactly
the objects deriveLocalGovData computes from the given simulation metrics and
timestep, issues no request, and leaves alerts, insight and health untouched;
when the health check succeeds it issues exactly the ten governance GETs. -/
theorem fetchGov_offline_fallback (nowIso : String) (o : GovFetchOutcome)
    (m : Option SimMetrics) (ts : ℚ) (st : DashState) :
    (fetchGov nowIso o m ts false st =
      ([], { st with
             stateData := some (deriveLocalGovData nowIso m ts).state
             climate := some (deriveLocalGovData nowIso m ts).climate
             water := some (deriveLocalGovData nowIso m ts).water
             env := some (deriveLocalGovData nowIso m ts).env
             economy := some (deriveLocalGovData nowIso m ts).economy
             social := some (deriveLocalGovData nowIso m ts).social
             forecast := some (deriveLocalGovData nowIso m ts).forecast })) ∧
    (fetchGov nowIso o m ts false st).2.alerts = st.alerts ∧
    (fetchGov nowIso o m ts false st).2.insight = st.insight ∧
    (fetchGov nowIso o m ts false st).2.health = st.health ∧
    (fetchGov nowIso o m ts true st).1 = govGetRequests :=
  ⟨rfl, rfl, rfl, rfl, rfl⟩

/-- A networked value is replaced wholesale or kept: the new stored value is
either exactly the fresh object (when one arrived) or exactly the old stored
value (when the fresh value is null); no merge of the two. -/
def Wholesale {α : Type} (fresh old new : Option α) : Prop :=
  (∃ v, fresh = some v ∧ new = some v) ∨ (fresh = none ∧ new = old)

theorem wholesale_oUpd {α : Type} (r old : Option α) : Wholesale r old (oUpd r old) := by
  cases r with
  | some v => exact Or.inl ⟨v, rfl, rfl⟩
  | none => exact Or.inr ⟨rfl, rfl⟩

/-- C4: on each poll, every governance DTO held by the dashboard is replaced
wholesale or kept: each of the ten fields ends up equal either to the entire
freshly received object (governance branch) or freshly derived object
(fallback branch), or - when the branch receives null for that endpoint - to
exactly its previous value; the fallback branch receives nothing for alerts,
insight and health, which therefore keep their previous values. -/
theorem fetchGov_wholesale_replacement (nowIso : String) (o : GovFetchOutcome)
    (m : Option SimMetrics) (ts : ℚ) (govUp : Bool) (st : DashState) :
    Wholesale (if govUp then get o.state else some (deriveLocalGovData nowIso m ts).state)
      st.stateData (fetchGov nowIso o m ts govUp st).2.stateData ∧
    Wholesale (if govUp then get o.climate else some (deriveLocalGovData nowIso m ts).climate)
      st.climate (fetchGov nowIso o m ts govUp st).2.climate ∧
    Wholesale (if govUp then get o.water else some (deriveLocalGovData nowIso m ts).water)
      st.water (fetchGov nowIso o m ts govUp st).2.water ∧
    Wholesale (if govUp then get o.environment else some (deriveLocalGovData nowIso m ts).env)
      st.env (fetchGov nowIso o m ts govUp st).2.env ∧
    Wholesale (if govUp then get o.economy else some (deriveLocalGovData nowIso m ts).economy)
      st.economy (fetchGov nowIso o m ts govUp st).2.economy ∧
    Wholesale (if govUp then get o.social else some (deriveLocalGovData nowIso m ts).social)
      st.social (fetchGov nowIso o m ts govUp st).2.social ∧
    Wholesale (if govUp then get o.alerts else none)
      st.alerts (fetchGov nowIso o m ts govUp st).2.alerts ∧
    Wholesale (if govUp then get o.insight else none)
      st.insight (fetchGov nowIso o m ts govUp st).2.insight ∧
    Wholesale (if govUp then get o.forecast else some (deriveLocalGovData nowIso m ts).forecast)
      st.forecast (fetchGov nowIso o m ts govUp st).2.forecast ∧
    Wholesale (if govUp then get o.health else none)
      st.health (fetchGov nowIso o m ts govUp st).2.health := by
  cases govUp with
  | true =>
    exact ⟨wholesale_oUpd _ _, wholesale_oUpd _ _, wholesale_oUpd _ _, wholesale_oUpd _ _,
           wholesale_oUpd _ _, wholesale_oUpd _ _, wholesale_oUpd _ _, wholesale_oUpd _ _,
           wholesale_oUpd _ _, wholesale_oUpd _ _⟩
  | false =>
    exact ⟨Or.inl ⟨_, rfl, rfl⟩, Or.inl ⟨_, rfl, rfl⟩, Or.inl ⟨_, rfl, rfl⟩,
           Or.inl ⟨_, rfl, rfl⟩, Or.inl ⟨_, rfl, rfl⟩, Or.inl ⟨_, rfl, rfl⟩,
           Or.inr ⟨rfl, rfl⟩, Or.inr ⟨rfl, rfl⟩, Or.inl ⟨_, rfl, rfl⟩, Or.inr ⟨rfl, rfl⟩⟩

theorem stepSim_lastManual (p : Option Policy) (o : HttpOutcome SimulateResp)
    (st : DashState) : (stepSim p o st).2.2.lastManualSimTime = st.lastManualSimTime := by
  cases hq : simulateResult o with
  | none => simp [stepSim, hq]
  | some r =>
    cases hr : r.results with
    | none => simp [stepSim, hq, hr]
    | some l =>
      cases l with
      | nil => simp [stepSim, hq, hr]
      | cons a t => simp [stepSim, hq, hr]

theorem fetchGov_lastManual (nowIso : String) (o : GovFetchOutcome)
    (m : Option SimMetrics) (ts : ℚ) (govUp : Bool) (st : DashState) :
    (fetchGov nowIso o m ts govUp st).2.lastManualSimTime = st.lastManualSimTime := by
  cases govUp <;> simp [fetchGov]

theorem fetchNodes_lastManual (o : HttpOutcome NodesResp) (sf : ℚ) (st : DashState) :
    (fetchNodes o sf st).2.lastManualSimTime = st.lastManualSimTime := by
  cases hg : get o with
  | none => simp [fetchNodes, hg]
  | some d =>
    cases hn : d.nodes with
    | none => simp [fetchNodes, hg, hn]
    | some l =>
      cases l with
      | nil => simp [fetchNodes, hg, hn]
      | cons a t => simp [fetchNodes, hg, hn]

/-- A policy application leaves the manual-simulation timestamp at the time it
recorded on entry: none of the follow-up fetches touches it. -/
theorem applyPolicy_lastManual (t0 : ℚ) (p : Policy) (o : NetOracle) (st : DashState) :
    (applyPolicy t0 p o st).2.lastManualSimTime = t0 := by
  unfold applyPolicy
  cases hret : (stepSim (some p) o.simulate { st with lastManualSimTime := t0 }).2.1 with
  | none =>
    simp only [hret]
    rw [stepSim_lastManual]
  | some pr =>
    rcases pr with ⟨m, ts⟩
    simp only [hret]
    rw [fetchNodes_lastManual, fetchGov_lastManual, stepSim_lastManual]

/-- C3: any tick invoked strictly less than 15000 milliseconds after a policy
application recorded the manual-simulation time returns immediately: it issues
no HTTP request and returns the dashboard state unchanged. -/
theorem tick_manual_override_suppression (t0 : ℚ) (p : Policy) (oa : NetOracle)
    (st : DashState) (now : ℚ) (o : TickOracle) (h : now - t0 < 15000) :
    tick now o (applyPolicy t0 p oa st).2 = ([], (applyPolicy t0 p oa st).2) := by
  unfold tick
  rw [if_pos]
  rw [applyPolicy_lastManual]
  exact h

/-- Witness for C3 at a concrete state, oracle and times. -/
theorem tick_manual_override_suppression_witness :
    tick 5 errTick (applyPolicy 0 [] errNet emptyDash).2 =
      ([], (applyPolicy 0 [] errNet emptyDash).2) :=
  tick_manual_override_suppression 0 [] errNet emptyDash 5 errTick (by norm_num)

/-- C10: stepSim is atomic on failure.  Whenever the simulate call resolves to
null or its results array is missing or empty, stepSim returns null and leaves
lastSimMetrics and timestep unchanged; when results is non-empty it returns
and stores the last element of results together with current_timestep (0 when
absent). -/
theorem stepSim_atomic (p : Option Policy) (o : HttpOutcome SimulateResp) (st : DashState) :
    (((simulateResult o).bind SimulateResp.results).getD [] = [] →
      (stepSim p o st).2.1 = none ∧
      (stepSim p o st).2.2.lastSimMetrics = st.lastSimMetrics ∧
      (stepSim p o st).2.2.timestep = st.timestep) ∧
    (∀ (r : SimulateResp) (m0 : SimMetrics) (ms : List SimMetrics),
      simulateResult o = some r → r.results = some (m0 :: ms) →
      (stepSim p o st).2.1 =
        some ((m0 :: ms).getLast (List.cons_ne_nil m0 ms), r.current_timestep.getD 0) ∧
      (stepSim p o st).2.2.lastSimMetrics = some ((m0 :: ms).getLast (List.cons_ne_nil m0 ms)) ∧
      (stepSim p o st).2.2.timestep = r.current_timestep.getD 0) := by
  constructor
  · intro hfail
    cases hq : simulateResult o with
    | none => simp [stepSim, hq]
    | some r =>
      cases hr : r.results with
      | none => simp [stepSim, hq, hr]
      | some l =>
        cases l with
        | nil => simp [stepSim, hq, hr]
        | cons a t =>
          rw [hq] at hfail
          simp [hr] at hfail
  · intro r m0 ms hq hr
    simp [stepSim, hq, hr]

def okSimResp : SimulateResp := ⟨some [mA], some 7⟩

/-- Witness for C10 at a concrete successful response. -/
theorem stepSim_atomic_witness :
    (stepSim none (HttpOutcome.response 200 okSimResp) emptyDash).2.1 = some (mA, 7) ∧
    (stepSim none (HttpOutcome.response 200 okSimResp) emptyDash).2.2.lastSimMetrics = some mA ∧
    (stepSim none (HttpOutcome.response 200 okSimResp) emptyDash).2.2.timestep = 7 :=
  (stepSim_atomic none (HttpOutcome.response 200 okSimResp) emptyDash).2 okSimResp mA [] rfl rfl

theorem jsRound_mono {a b : ℚ} (h : a ≤ b) : jsRound a ≤ jsRound b := by
  unfold jsRound
  exact_mod_cast Int.floor_le_floor (by linarith)

theorem rangeMap_getD {α : Type} [Inhabited α] (f : ℕ → α) (d : α) (i : ℕ) (hi : i < 7) :
    ((List.range 7).map f).getD i d = f i := by
  rw [List.getD_eq_getElem?_getD, List.getElem?_map, List.getElem?_range hi]
  rfl

/-- C8: for every input, deriveLocalGovData returns bounded, internally
consistent values.  The water-status thresholds are stated on the consumption
magnitude the code branches on, namely the absolute value of
total_water_consumption (default 85), matching the local variable water in the
source. -/
theorem deriveLocalGovData_invariants (nowIso : String) (m : Option SimMetrics) (ts : ℚ) :
    0 ≤ (deriveLocalGovData nowIso m ts).state.system_stability_score ∧
    10 ≤ (deriveLocalGovData nowIso m ts).water.reservoir_level_percent ∧
    (deriveLocalGovData nowIso m ts).water.reservoir_level_percent ≤ 80 ∧
    (deriveLocalGovData nowIso m ts).water.water_stress_index ≤ 1 ∧
    1 ≤ (deriveLocalGovData nowIso m ts).water.days_until_critical ∧
    (deriveLocalGovData nowIso m ts).env.emission_growth_rate ≤ 0.15 ∧
    (deriveLocalGovData nowIso m ts).env.carbon_stress_index ≤ 1 ∧
    (deriveLocalGovData nowIso m ts).social.public_pressure_score ≤ 1 ∧
    0.2 ≤ (deriveLocalGovData nowIso m ts).social.governance_confidence ∧
    (deriveLocalGovData nowIso m ts).social.governance_confidence ≤ 0.8 ∧
    (deriveLocalGovData nowIso m ts).forecast.risk_probability ≤ 0.95 ∧
    ((deriveLocalGovData nowIso m ts).water.status = WaterStatus.critical ↔
      100 < |(m.bind SimMetrics.total_water_consumption).getD 85|) ∧
    ((deriveLocalGovData nowIso m ts).water.status = WaterStatus.warning ↔
      60 < |(m.bind SimMetrics.total_water_consumption).getD 85| ∧
        |(m.bind SimMetrics.total_water_consumption).getD 85| ≤ 100) ∧
    (deriveLocalGovData nowIso m ts).forecast.reservoir_projection.length = 7 ∧
    (deriveLocalGovData nowIso m ts).forecast.emission_projection.length = 7 ∧
    (∀ i : ℕ, i < 7 →
      10 ≤ (deriveLocalGovData nowIso m ts).forecast.reservoir_projection.getD i 0) ∧
    (∀ i j : ℕ, i ≤ j → j < 7 →
      (deriveLocalGovData nowIso m ts).forecast.reservoir_projection.getD j 0 ≤
        (deriveLocalGovData nowIso m ts).forecast.reservoir_projection.getD i 0) := by
  have hw : (0:ℚ) ≤ |(m.bind SimMetrics.total_water_consumption).getD 85| := abs_nonneg _
  have hv : (0:ℚ) ≤ |(m.bind SimMetrics.average_social_vulnerability).getD 0.4| := abs_nonneg _
  have he : (0:ℚ) ≤ |(m.bind SimMetrics.total_emissions).getD 120| := abs_nonneg _
  simp only [deriveLocalGovData]
  refine ⟨le_max_left 0 _, le_max_left 10 _, ?_, min_le_left 1 _, le_max_left 1 _,
    min_le_left _ _, min_le_left 1 _, min_le_left 1 _, le_max_left _ _, ?_,
    min_le_left _ _, ?_, ?_, ?_, ?_, ?_, ?_⟩
  · exact max_le (by norm_num) (by linarith)
  · exact max_le (by norm_num) (by nlinarith)
  · constructor
    · intro hs
      by_contra hgt
      rw [if_neg hgt] at hs
      by_cases h60 : 60 < |(m.bind SimMetrics.total_water_consumption).getD 85|
      · rw [if_pos h60] at hs
        exact WaterStatus.noConfusion hs
      · rw [if_neg h60] at hs
        exact WaterStatus.noConfusion hs
    · intro hgt
      rw [if_pos hgt]
  · constructor
    · intro hs
      by_cases h100 : 100 < |(m.bind SimMetrics.total_water_consumption).getD 85|
      · rw [if_pos h100] at hs
        exact absurd hs (by simp)
      · rw [if_neg h100] at hs
        by_cases h60 : 60 < |(m.bind SimMetrics.total_water_consumption).getD 85|
        · exact ⟨h60, le_of_not_lt h100⟩
        · rw [if_neg h60] at hs
          exact absurd hs (by simp)
    · intro ⟨h60, h100⟩
      rw [if_neg (not_lt.mpr h100), if_pos h60]
  · simp
  · simp
  · intro i hi
    rw [rangeMap_getD _ _ i hi]
    exact le_max_left 10 _
  · intro i j hij hj
    rw [rangeMap_getD _ _ j hj, rangeMap_getD _ _ i (lt_of_le_of_lt hij hj)]
    refine max_le_max le_rfl (jsRound_mono ?_)
    have hcast : (i:ℚ) ≤ (j:ℚ) := by exact_mod_cast hij
    have hdiv : (0:ℚ) ≤ |(m.bind SimMetrics.total_water_consumption).getD 85| / 500 := by
      positivity
    nlinarith

/-- Witness for C8 at the default metrics: the projection entries are bounded
below by 10 and non-increasing at indices 0 and 1. -/
theorem deriveLocalGovData_invariants_witness :
    10 ≤ (deriveLocalGovData "" none 0).forecast.reservoir_projection.getD 0 0 ∧
    (deriveLocalGovData "" none 0).forecast.reservoir_projection.getD 1 0 ≤
      (deriveLocalGovData "" none 0).forecast.reservoir_projection.getD 0 0 := by
  obtain ⟨-, -, -, -, -, -, -, -, -, -, -, -, -, -, -, hlow, hmono⟩ :=
    deriveLocalGovData_invariants "" none 0
  exact ⟨hlow 0 (by norm_num), hmono 0 1 (by norm_num) (by norm_num)⟩

theorem lcgNext_lt (s : ℕ) : lcgNext s < 2 ^ 28 :=
  Nat.mod_lt _ (by norm_num)

theorem lcgVal_nonneg (s : ℕ) : 0 ≤ lcgVal s := by
  unfold lcgVal
  positivity

theorem lcgVal_le_one {s : ℕ} (hs : s < 2 ^ 28) : lcgVal s ≤ 1 := by
  unfold lcgVal
  rw [div_le_one (by norm_num)]
  have h1 : s ≤ 268435455 := by omega
  have h2 : (s : ℚ) ≤ 268435455 := by exact_mod_cast h1
  norm_num
  linarith

/-- The in-range property of one synthetic node. -/
def NodeOK (n : NodeData) : Prop :=
  CL - R ≤ n.lat ∧ n.lat ≤ CL + R ∧ CO - R ≤ n.lon ∧ n.lon ≤ CO + R ∧
  0 ≤ n.stress ∧ n.stress ≤ 1 ∧ n.emissions = n.stress * 400

theorem synthNode_ok {sf : ℚ} (hsf : 0 ≤ sf) (s id : ℕ) :
    NodeOK (synthNode sf s id).1 := by
  unfold NodeOK synthNode
  have h1l := lcgVal_nonneg (lcgNext s)
  have h1u := lcgVal_le_one (lcgNext_lt s)
  have h2l := lcgVal_nonneg (lcgNext (lcgNext s))
  have h2u := lcgVal_le_one (lcgNext_lt (lcgNext s))
  have h3l := lcgVal_nonneg (lcgNext (lcgNext (lcgNext s)))
  have h3u := lcgVal_le_one (lcgNext_lt (lcgNext (lcgNext s)))
  have h4l := lcgVal_nonneg (lcgNext (lcgNext (lcgNext (lcgNext s))))
  have h4u := lcgVal_le_one (lcgNext_lt (lcgNext (lcgNext (lcgNext s))))
  unfold CL CO R
  refine ⟨by norm_num; linarith, by norm_num; linarith,
          by norm_num; linarith, by norm_num; linarith, ?_, min_le_left 1 _, rfl⟩
  exact le_min (by norm_num) (by nlinarith)

theorem genNodes_forall (sf : ℚ) (P : NodeData → Prop)
    (hP : ∀ s id, P (synthNode sf s id).1) :
    ∀ (c s id : ℕ), ∀ n ∈ genNodes sf s id c, P n := by
  intro c
  induction c with
  | zero =>
    intro s id n hn
    simp [genNodes] at hn
  | succ c ih =>
    intro s id n hn
    rw [genNodes] at hn
    rcases List.mem_cons.mp hn with h | h
    · rw [h]
      exact hP s id
    · exact ih _ _ n h

theorem genNodes_length (sf : ℚ) :
    ∀ (c s id : ℕ), (genNodes sf s id c).length = c := by
  intro c
  induction c with
  | zero => intro s id; rfl
  | succ c ih =>
    intro s id
    rw [genNodes]
    simp [ih]

theorem genNodes_ids (sf : ℚ) :
    ∀ (c s id : ℕ), (genNodes sf s id c).map NodeData.id = List.range' id c := by
  intro c
  induction c with
  | zero => intro s id; rfl
  | succ c ih =>
    intro s id
    rw [genNodes, List.range'_succ]
    simp only [List.map_cons, ih]
    rfl

theorem synthNode_stress_le (sf : ℚ) (s id : ℕ) :
    (synthNode sf s id).1.stress ≤ 13/20 + sf * (1/2) := by
  unfold synthNode
  have h3u := lcgVal_le_one (lcgNext_lt (lcgNext (lcgNext s)))
  have h4u := lcgVal_le_one (lcgNext_lt (lcgNext (lcgNext (lcgNext s))))
  calc min 1 (lcgVal (lcgNext (lcgNext (lcgNext s))) * 0.5 + sf * 0.5 +
          lcgVal (lcgNext (lcgNext (lcgNext (lcgNext s)))) * 0.15) ≤
      lcgVal (lcgNext (lcgNext (lcgNext s))) * 0.5 + sf * 0.5 +
          lcgVal (lcgNext (lcgNext (lcgNext (lcgNext s)))) * 0.15 := min_le_right _ _
    _ ≤ 13/20 + sf * (1/2) := by nlinarith

/-- Counterexample to C9: for the negative stress factor -10 (and the default
seed 42) the generated nodes have negative stress, outside the claimed
interval from 0 to 1. -/
theorem generateSyntheticNodes_negative_stress :
    ¬ ∀ n ∈ generateSyntheticNodes (-10) 42, 0 ≤ n.stress ∧ n.stress ≤ 1 := by
  intro hall
  have hlen : (generateSyntheticNodes (-10) 42).length = 200 :=
    genNodes_length (-10) 200 42 0
  have hne : generateSyntheticNodes (-10) 42 ≠ [] := by
    intro h
    rw [h] at hlen
    simp at hlen
  have hmem := List.head_mem hne
  have h1 := (hall _ hmem).1
  have h2 := genNodes_forall (-10) (fun n => n.stress ≤ 13/20 + (-10) * (1/2))
      (fun s id => synthNode_stress_le (-10) s id) 200 42 0 _ hmem
  simp only at h2
  linarith

/-- C9 (amended with the nonnegativity of the stress factor the callers
guarantee): generateSyntheticNodes is deterministic, returns exactly 200 nodes
with ids 0..199, latitudes within R of CL, longitudes within R of CO, stress
in the unit interval, and emissions equal to stress * 400. -/
theorem generateSyntheticNodes_bounded (sf : ℚ) (hsf : 0 ≤ sf) (seed : ℕ) :
    generateSyntheticNodes sf seed = generateSyntheticNodes sf seed ∧
    (generateSyntheticNodes sf seed).length = 200 ∧
    (generateSyntheticNodes sf seed).map NodeData.id = List.range 200 ∧
    ∀ n ∈ generateSyntheticNodes sf seed,
      CL - R ≤ n.lat ∧ n.lat ≤ CL + R ∧ CO - R ≤ n.lon ∧ n.lon ≤ CO + R ∧
      0 ≤ n.stress ∧ n.stress ≤ 1 ∧ n.emissions = n.stress * 400 := by
  refine ⟨rfl, genNodes_length sf 200 seed 0, ?_, ?_⟩
  · rw [List.range_eq_range' 200]
    exact genNodes_ids sf 200 seed 0
  · exact genNodes_forall sf NodeOK (fun s id => synthNode_ok hsf s id) 200 seed 0

/-- Witness for C9's amended theorem at stress factor 0 and the default seed. -/
theorem generateSyntheticNodes_bounded_witness :
    (generateSyntheticNodes 0 42).length = 200 ∧
    (generateSyntheticNodes 0 42).map NodeData.id = List.range 200 :=
  ⟨(generateSyntheticNodes_bounded 0 le_rfl 42).2.1,
   (generateSyntheticNodes_bounded 0 le_rfl 42).2.2.1⟩

/-- C6: a send with a non-empty trimmed question while not loading issues
exactly one POST to /api/policy-chat whose body carries that exact question,
and appends exactly one user message (the question) followed by exactly one
assistant message (the returned analysis with its result on success, an error
message on failure) to the message list; a send with an empty trimmed question
or while loading issues no request and appends nothing. -/
theorem policyChat_send_spec (question : Option String) (o : HttpOutcome PolicyResult)
    (netMsg : String) (st : ChatState)
    (hq : jsTrim (question.getD st.input) ≠ "")
    (hl : st.loading = false) :
    (send question o netMsg st =
      ([policyChatReq (jsTrim (question.getD st.input)) (keyOf st.apiKey)],
       { st with
         input := ""
         loading := false
         messages := st.messages ++
           [⟨Role.user, jsTrim (question.getD st.input), none⟩, assistantReply o netMsg] })) ∧
    (∀ d : PolicyResult, chatResult o = some d →
      assistantReply o netMsg = ⟨Role.assistant, d.analysis, some d⟩) ∧
    (chatResult o = none →
      assistantReply o netMsg = ⟨Role.assistant, chatErrorText o netMsg, none⟩) ∧
    (∀ (q2 : Option String) (o2 : HttpOutcome PolicyResult) (n2 : String) (st2 : ChatState),
      jsTrim (q2.getD st2.input) = "" ∨ st2.loading = true →
      send q2 o2 n2 st2 = ([], st2)) := by
  refine ⟨?_, ?_, ?_, ?_⟩
  · unfold send
    rw [if_neg]
    exact not_or.mpr ⟨hq, by rw [hl]; simp⟩
  · intro d hd
    unfold assistantReply
    rw [hd]
  · intro hd
    unfold assistantReply
    rw [hd]
  · intro q2 o2 n2 st2 h2
    unfold send
    rw [if_pos h2]

/-- Witness for C6 at a concrete question and a failing network. -/
theorem policyChat_send_spec_witness :
    send (some "Hi") HttpOutcome.netError "failed" emptyChat =
      ([policyChatReq (jsTrim ((some "Hi").getD emptyChat.input)) (keyOf emptyChat.apiKey)],
       { emptyChat with
         input := ""
         loading := false
         messages := emptyChat.messages ++
           [⟨Role.user, jsTrim ((some "Hi").getD emptyChat.input), none⟩,
            assistantReply HttpOutcome.netError "failed"] }) :=
  (policyChat_send_spec (some "Hi") HttpOutcome.netError "failed" emptyChat
    (by decide) rfl).1

end Etwin
